import Mathlib

/-!
Verification development for the solvigo-platform repository.

Shallow embedding of:
  - cli/solvigo/terraform/generator.py (identifier sanitizer, idempotent
    append primitive, Terraform artifact composition, import directives)
  - cli/solvigo/utils/bootstrap.py (bootstrap orchestrator over a gcloud
    command oracle, with an explicit trace of issued commands)
  - platform/admin-api/app/gcp/errors.py (error classifier)
  - platform/admin-api/app/routers/platform.py (build-trigger provisioning loop)

Strings are modelled as Lean String / List Char.  Character classification
functions (Python str.isalpha / isdigit / isalnum / lower) are modelled
exactly for code points below 0x100 (ASCII and Latin-1); code points at or
above 0x100 are modelled as non-alphanumeric, which is outside the character
range this development exercises.
-/

namespace Solvigo

/-! ## Python character and string primitives -/

/-- Python str.isalpha, exact on code points < 0x100
(ASCII letters; Latin-1: ordinal indicators 0xAA/0xBA, micro sign 0xB5,
letters 0xC0-0xD6, 0xD8-0xF6, 0xF8-0xFF). -/
def pyIsAlpha (c : Char) : Bool :=
  decide ((65 ≤ c.toNat ∧ c.toNat ≤ 90) ∨ (97 ≤ c.toNat ∧ c.toNat ≤ 122)
    ∨ c.toNat = 0xAA ∨ c.toNat = 0xB5 ∨ c.toNat = 0xBA
    ∨ (0xC0 ≤ c.toNat ∧ c.toNat ≤ 0xD6) ∨ (0xD8 ≤ c.toNat ∧ c.toNat ≤ 0xF6)
    ∨ (0xF8 ≤ c.toNat ∧ c.toNat ≤ 0xFF))

/-- Python str.isdigit, exact on code points < 0x100
(ASCII digits plus the superscripts 0xB2, 0xB3, 0xB9). -/
def pyIsDigit (c : Char) : Bool :=
  decide ((48 ≤ c.toNat ∧ c.toNat ≤ 57) ∨ c.toNat = 0xB2 ∨ c.toNat = 0xB3 ∨ c.toNat = 0xB9)

/-- Python str.isalnum (isalpha or isdigit or isnumeric), exact on code
points < 0x100 (the vulgar fractions 0xBC-0xBE are numeric). -/
def pyIsAlnum (c : Char) : Bool :=
  pyIsAlpha c || pyIsDigit c || decide (0xBC ≤ c.toNat ∧ c.toNat ≤ 0xBE)

/-- Python str.islower, exact on code points < 0x100. -/
def pyIsLower (c : Char) : Bool :=
  decide ((97 ≤ c.toNat ∧ c.toNat ≤ 122) ∨ c.toNat = 0xAA ∨ c.toNat = 0xB5 ∨ c.toNat = 0xBA
    ∨ (0xDF ≤ c.toNat ∧ c.toNat ≤ 0xF6) ∨ (0xF8 ≤ c.toNat ∧ c.toNat ≤ 0xFF))

/-- Python str.lower on a single character, exact on code points < 0x100. -/
def pyLowerChar (c : Char) : Char :=
  if 65 ≤ c.toNat ∧ c.toNat ≤ 90 then Char.ofNat (c.toNat + 32)
  else if (0xC0 ≤ c.toNat ∧ c.toNat ≤ 0xDE) ∧ c.toNat ≠ 0xD7 then Char.ofNat (c.toNat + 32)
  else c

/-- Python str.upper on a single character, exact on ASCII
(used only through pyCapitalize on ASCII service types). -/
def pyUpperChar (c : Char) : Char :=
  if 97 ≤ c.toNat ∧ c.toNat ≤ 122 then Char.ofNat (c.toNat - 32)
  else c

/-- Python str.capitalize: first character upper-cased, the rest lower-cased. -/
def pyCapitalize (s : String) : String :=
  match s.toList with
  | [] => ""
  | c :: cs => ((pyUpperChar c) :: cs.map pyLowerChar).asString

/-- Python str.lower. -/
def pyLower (s : String) : String :=
  (s.toList.map pyLowerChar).asString

/-- Does the pattern occur at the head of the text?  (List-level helper for
Python substring search.) -/
def leadsWith : List Char → List Char → Bool
  | [], _ => true
  | _ :: _, [] => false
  | p :: ps, c :: cs => p == c && leadsWith ps cs

/-- Python substring containment (the `in` operator on str). -/
def containsSub (pat : List Char) : List Char → Bool
  | [] => leadsWith pat []
  | c :: rest => leadsWith pat (c :: rest) || containsSub pat rest

/-- Python str.replace with an empty replacement: remove every
(left-to-right, non-overlapping) occurrence of the pattern.  Structural
recursion on a fuel argument (one unit per character of the scanned text, so
fuel equal to the text length always suffices: each step consumes at least
one character). -/
def removeAllFuel (pat : List Char) : Nat → List Char → List Char
  | 0, _ => []
  | _, [] => []
  | fuel + 1, c :: rest =>
    if leadsWith pat (c :: rest) then
      removeAllFuel pat fuel (List.drop (pat.length - 1) rest)
    else c :: removeAllFuel pat fuel rest

/-- Python str.replace with an empty replacement. -/
def removeAll (pat : List Char) (s : List Char) : List Char :=
  removeAllFuel pat s.length s

/-- Python str.replace for a single character pattern. -/
def replaceChar (a b : Char) (s : String) : String :=
  (s.toList.map (fun c => if c == a then b else c)).asString

/-- Python truthiness of an optional string (None and the empty string are falsy). -/
def pyTruthy : Option String → Bool
  | none => false
  | some s => s ≠ ""

/-- Python `a or b` for an optional string with a default. -/
def pyOrStr (a : Option String) (dflt : String) : String :=
  match a with
  | some s => if s = "" then dflt else s
  | none => dflt

/-- A character allowed as the first character of a Terraform identifier:
[A-Za-z_]. -/
def tfHeadChar (c : Char) : Bool :=
  decide ((65 ≤ c.toNat ∧ c.toNat ≤ 90) ∨ (97 ≤ c.toNat ∧ c.toNat ≤ 122) ∨ c.toNat = 95)

/-- A character allowed after the first character of a Terraform identifier:
[A-Za-z0-9_]. -/
def tfTailChar (c : Char) : Bool :=
  decide ((65 ≤ c.toNat ∧ c.toNat ≤ 90) ∨ (97 ≤ c.toNat ∧ c.toNat ≤ 122)
    ∨ (48 ≤ c.toNat ∧ c.toNat ≤ 57) ∨ c.toNat = 95)

/-- A valid Terraform identifier in the sense of the specification:
matches [A-Za-z_][A-Za-z0-9_]*. -/
def isValidTfIdent (s : List Char) : Bool :=
  match s with
  | [] => false
  | c :: cs => tfHeadChar c && cs.all tfTailChar

/-! ## terraform/generator.py : sanitize_terraform_name -/

/-- The table mapping a resource type to the prefix prepended when the
sanitized name starts with a digit (prefix_map with default "res_"). -/
def prefixFor (resource_type : List Char) : List Char :=
  if resource_type = "service_account".toList then "sa_".toList
  else if resource_type = "bucket".toList then "bucket_".toList
  else if resource_type = "database".toList then "db_".toList
  else if resource_type = "cloud_run".toList then "service_".toList
  else if resource_type = "secret".toList then "secret_".toList
  else "res_".toList

/-- The first five normalization steps of sanitize_terraform_name: take the
part before the first at sign, remove ".gserviceaccount.com" and ".iam",
turn hyphens and dots into underscores. -/
def sanitizeStage5 (name : List Char) : List Char :=
  let n1 := name.takeWhile (fun c => c ≠ '@')
  let n2 := removeAll ".gserviceaccount.com".toList n1
  let n3 := removeAll ".iam".toList n2
  let n4 := n3.map (fun c => if c == '-' then '_' else c)
  n4.map (fun c => if c == '.' then '_' else c)

/-- Normalization including the catch-all step: every character that is not
alphanumeric (Python isalnum) or underscore becomes an underscore. -/
def sanitizeCore (name : List Char) : List Char :=
  (sanitizeStage5 name).map (fun c => if pyIsAlnum c || c == '_' then c else '_')

/-- Step prepending the type prefix when the normalized name starts with a
digit. -/
def digitStep (l resource_type : List Char) : List Char :=
  match l with
  | [] => ([] : List Char)
  | c :: cs => if pyIsDigit c then prefixFor resource_type ++ (c :: cs) else c :: cs

/-- Final fallback: when the name is empty use the bare resource type; when
it does not start with a letter or underscore, prepend the resource type and
an underscore. -/
def finalStep (l resource_type : List Char) : List Char :=
  match l with
  | [] => resource_type
  | c :: cs =>
    if pyIsAlpha c || c == '_' then c :: cs
    else resource_type ++ '_' :: (c :: cs)

/-- sanitize_terraform_name, list-of-characters level: normalization, digit
prefixing, final fallback. -/
def sanitizeChars (name : List Char) (resource_type : List Char) : List Char :=
  finalStep (digitStep (sanitizeCore name) resource_type) resource_type

/-- sanitize_terraform_name at the String level. -/
def sanitize_terraform_name (name : String) (resource_type : String) : String :=
  (sanitizeChars name.toList resource_type.toList).asString

/-! ## terraform/generator.py : sanitize_label_value -/

/-- Collapse every maximal run of hyphens/underscores to the first character
of the run (re.sub of the class [-_]+ with the first matched character).
The boolean argument records whether the previous character was part of such
a run. -/
def collapseDashRuns : Bool → List Char → List Char
  | _, [] => []
  | inRun, c :: rest =>
    if c == '-' || c == '_' then
      if inRun then collapseDashRuns true rest
      else c :: collapseDashRuns true rest
    else c :: collapseDashRuns false rest

/-- Python str.strip with an explicit set of characters: drop them from both
ends. -/
def stripChars (bad : List Char) (s : List Char) : List Char :=
  ((s.dropWhile (fun c => bad.contains c)).reverse.dropWhile
      (fun c => bad.contains c)).reverse

/-- sanitize_label_value: lower-case, spaces to hyphens, keep only lowercase
letters, digits, underscores and hyphens, collapse runs of hyphens and
underscores, truncate to 63 characters, strip leading and trailing hyphens
and underscores. -/
def sanitize_label_value (value : String) : String :=
  let v1 := value.toList.map pyLowerChar
  let v2 := v1.map (fun c => if c == ' ' then '-' else c)
  let v3 := v2.filter (fun c => pyIsLower c || pyIsDigit c || c == '_' || c == '-')
  let v4 := collapseDashRuns false v3
  let v5 := v4.take 63
  (stripChars ['-', '_'] v5).asString

/-! ## terraform/generator.py : append_to_tf_file

The file system is modelled as the optional current content of the file. -/

/-- Python substring containment at the String level. -/
def containsSubStr (pat s : String) : Bool :=
  containsSub pat.toList s.toList

/-- append_to_tf_file: write the content when the file does not exist;
return False and leave the file unchanged when resource_id occurs anywhere
as a substring of the existing text; otherwise append two newlines followed
by the content.  Returns the new file content and the boolean result. -/
def append_to_tf_file (file : Option String) (content : String)
    (resource_id : String) : Option String × Bool :=
  match file with
  | none => (some content, true)
  | some existing =>
    if containsSubStr resource_id existing then (some existing, false)
    else (some (existing ++ "\n\n" ++ content), true)

/-! ## Resource selection data model

`selected_resources` is a dict of lists in the source; optional dict entries
(accessed with .get and a default) are modelled as Option fields, and the
truthiness of `_create` as a Bool. -/

structure ServiceRes where
  name : String
  type_ : Option String
  region : Option String
  create : Bool
deriving DecidableEq

structure SqlRes where
  name : String
  database_version : Option String
  tier : Option String
  backups : Option Bool
  create : Bool
deriving DecidableEq

structure FirestoreRes where
  location : Option String
  mode : Option String
  create : Bool
deriving DecidableEq

structure BucketRes where
  name : String
  location : Option String
  create : Bool
deriving DecidableEq

structure SecretRes where
  name : String
  create : Bool
deriving DecidableEq

structure SaRes where
  email : String
  display_name : Option String
deriving DecidableEq

structure Selection where
  cloud_run : List ServiceRes
  cloud_sql : List SqlRes
  firestore : List FirestoreRes
  storage : List BucketRes
  secrets : List SecretRes
  service_accounts : List SaRes
  apis : List String
deriving DecidableEq

/-! ## Slug helpers shared by several generators -/

/-- Collapse every run of hyphens to a single hyphen
(re.sub of one-or-more hyphens with a single hyphen). -/
def collapseHyphenRuns : Bool → List Char → List Char
  | _, [] => []
  | inRun, c :: rest =>
    if c == '-' then
      if inRun then collapseHyphenRuns true rest
      else '-' :: collapseHyphenRuns true rest
    else c :: collapseHyphenRuns false rest

/-- lower-case, spaces and underscores to hyphens, drop everything outside
[a-z0-9-]. -/
def slugBase (s : String) : List Char :=
  (((pyLower s).toList.map (fun c => if c == ' ' then '-' else c)).map
      (fun c => if c == '_' then '-' else c)).filter
    (fun c =>
      if (97 ≤ c.toNat ∧ c.toNat ≤ 122) ∨ (48 ≤ c.toNat ∧ c.toNat ≤ 57) ∨ c = '-'
      then true else false)

/-- Project slug as computed in generate_cloud_run_tf, generate_cloud_sql_module
and generate_service_accounts_tf: slugBase, collapse hyphen runs, strip hyphens. -/
def slugFull (s : String) : String :=
  (stripChars ['-'] (collapseHyphenRuns false (slugBase s))).asString

/-- Project slug as computed in generate_migration_job_tf (no hyphen-run
collapsing and no stripping there). -/
def slugNoCollapse (s : String) : String :=
  (slugBase s).asString

/-- solvigo.utils.bootstrap.PLATFORM_PROJECT_NUMBER -/
def PLATFORM_PROJECT_NUMBER : String := "430162142300"

/-! ## Artifact content generators

Each generate_*_tf function is modelled as a pure function from its inputs to
the exact text written to the artifact file (the output_dir parameter and the
console logging are dropped).  Jinja templates are rendered with the default
environment: block tags keep the following newline, and the single trailing
newline of the template source is stripped. -/

def generate_backend_tf (client project : String) : String :=
  let client_slug := replaceChar ' ' '-' (pyLower client)
  let project_slug := replaceChar ' ' '-' (pyLower project)
  "terraform \x7b\n  backend \"gcs\" \x7b\n    bucket = \"" ++ client_slug
    ++ "-terraform-state\"\n    prefix = \"" ++ project_slug
    ++ "/prod\"\n  \x7d\n\n  required_version = \">= 1.5.0\"\n\n"
    ++ "  required_providers \x7b\n    google = \x7b\n"
    ++ "      source  = \"hashicorp/google\"\n      version = \"~> 5.0\"\n"
    ++ "    \x7d\n  \x7d\n\x7d"

def generate_variables_tf (client project gcp_project_id : String) : String :=
  let client_label := sanitize_label_value client
  let project_label := sanitize_label_value project
  "variable \"project_id\" \x7b\n  description = \"GCP Project ID\"\n"
    ++ "  type        = string\n  default     = \"" ++ gcp_project_id ++ "\"\n\x7d\n\n"
    ++ "variable \"region\" \x7b\n  description = \"Default GCP region\"\n"
    ++ "  type        = string\n  default     = \"europe-north2\"\n\x7d\n\n"
    ++ "variable \"client_name\" \x7b\n  description = \"Client name\"\n"
    ++ "  type        = string\n  default     = \"" ++ client ++ "\"\n\x7d\n\n"
    ++ "variable \"project_name\" \x7b\n  description = \"Project name\"\n"
    ++ "  type        = string\n  default     = \"" ++ project ++ "\"\n\x7d\n\n"
    ++ "variable \"environment\" \x7b\n  description = \"Environment\"\n"
    ++ "  type        = string\n  default     = \"prod\"\n\x7d\n\n"
    ++ "variable \"labels\" \x7b\n  description = \"Standard labels\"\n"
    ++ "  type        = map(string)\n  default = \x7b\n"
    ++ "    client      = \"" ++ client_label ++ "\"\n"
    ++ "    project     = \"" ++ project_label ++ "\"\n"
    ++ "    environment = \"prod\"\n    managed_by  = \"terraform\"\n"
    ++ "    cost_center = \"client-billable\"\n  \x7d\n\x7d\n\n"
    ++ "variable \"shared_vpc_project\" \x7b\n  description = \"Shared VPC host project ID\"\n"
    ++ "  type        = string\n  default     = \"solvigo-platform-prod\"\n\x7d\n\n"
    ++ "variable \"shared_vpc_name\" \x7b\n  description = \"Shared VPC network name\"\n"
    ++ "  type        = string\n  default     = \"solvigo-shared-vpc\"\n\x7d"

def generate_main_tf (client project : String) : String :=
  "# " ++ client ++ " / " ++ project ++ "\n# Generated by Solvigo CLI\n\n"
    ++ "provider \"google\" \x7b\n  project = var.project_id\n  region  = var.region\n\x7d\n\n"
    ++ "# Local variables\nlocals \x7b\n  labels = var.labels\n\x7d"

def generate_deployer_sa_tf : String :=
  "# Deployer Service Account\n"
    ++ "# Created via CLI bootstrap, managed by Terraform going forward\n"
    ++ "resource \"google_service_account\" \"deployer\" \x7b\n"
    ++ "  account_id   = \"deployer\"\n  display_name = \"Cloud Build Deployer\"\n"
    ++ "  description  = \"Service account for deploying services via Cloud Build\"\n"
    ++ "  project      = var.project_id\n\x7d\n\n"
    ++ "# Grant permissions to deployer SA\n"
    ++ "resource \"google_project_iam_member\" \"deployer_run_admin\" \x7b\n"
    ++ "  project = var.project_id\n  role    = \"roles/run.admin\"\n"
    ++ "  member  = \"serviceAccount:$\x7bgoogle_service_account.deployer.email\x7d\"\n\x7d\n\n"
    ++ "resource \"google_project_iam_member\" \"deployer_secret_accessor\" \x7b\n"
    ++ "  project = var.project_id\n  role    = \"roles/secretmanager.secretAccessor\"\n"
    ++ "  member  = \"serviceAccount:$\x7bgoogle_service_account.deployer.email\x7d\"\n\x7d\n\n"
    ++ "resource \"google_project_iam_member\" \"deployer_artifact_writer\" \x7b\n"
    ++ "  project = var.project_id\n  role    = \"roles/artifactregistry.writer\"\n"
    ++ "  member  = \"serviceAccount:$\x7bgoogle_service_account.deployer.email\x7d\"\n\x7d\n\n"
    ++ "# Allow Cloud Build to impersonate deployer SA\n"
    ++ "resource \"google_service_account_iam_member\" \"deployer_user\" \x7b\n"
    ++ "  service_account_id = google_service_account.deployer.name\n"
    ++ "  role               = \"roles/iam.serviceAccountUser\"\n"
    ++ "  member             = \"serviceAccount:" ++ PLATFORM_PROJECT_NUMBER
    ++ "@cloudbuild.gserviceaccount.com\"\n\x7d\n\n"
    ++ "# Output deployer SA email for reference\n"
    ++ "output \"deployer_sa_email\" \x7b\n"
    ++ "  value       = google_service_account.deployer.email\n"
    ++ "  description = \"Deployer service account email\"\n\x7d"

/-- APIs enabled in every configuration. -/
def baseApis : List String :=
  ["run.googleapis.com", "sqladmin.googleapis.com", "compute.googleapis.com",
   "servicenetworking.googleapis.com", "vpcaccess.googleapis.com",
   "cloudresourcemanager.googleapis.com"]

def generate_apis_tf (sel : Selection) : String :=
  let apis := if sel.apis ≠ [] then baseApis ++ sel.apis else baseApis
  "# Enable required GCP APIs\n\n"
    ++ "resource \"google_project_service\" \"required_apis\" \x7b\n"
    ++ "  for_each = toset([\n"
    ++ String.join (apis.map (fun a => "\n    \"" ++ a ++ "\",\n"))
    ++ "\n  ])\n\n  project = var.project_id\n  service = each.value\n\n"
    ++ "  disable_on_destroy = false\n\x7d"

/-- Head of the Python `original_account_id[0].isdigit()` check; the source
raises IndexError on an empty account id, a case this development never
exercises. -/
def headIsDigit (s : List Char) : Bool :=
  match s with
  | [] => false
  | c :: _ => pyIsDigit c

/-- generate_service_accounts_tf.  The unused `append` parameter of the
source is dropped (its body never reads it); the fallback branch of the
source also computes an unused client slug, which is omitted here. -/
def generate_service_accounts_tf (client project : String)
    (accounts : List SaRes) (cloud_run_services : List ServiceRes)
    (has_database enable_vertex_ai : Bool)
    (client_subdomain project_subdomain : Option String) : String :=
  let _ := client
  let sa_prefix :=
    if pyTruthy client_subdomain && pyTruthy project_subdomain then
      client_subdomain.getD "" ++ "-" ++ project_subdomain.getD ""
    else slugFull project
  let deployer_sa_email := "google_service_account.deployer.email"
  let sa_email_locals := cloud_run_services.map (fun s =>
    let service_type := s.type_.getD "backend"
    let sa_name := sa_prefix ++ "-" ++ service_type ++ "-app"
    let resource_name := replaceChar '-' '_' sa_name
    "  " ++ resource_name ++ "_email = \"" ++ sa_name
      ++ "@$\x7bvar.project_id\x7d.iam.gserviceaccount.com\"")
  let sa_emails_block := String.intercalate "\n" sa_email_locals
  let localsBlock :=
    "\n# Data source for project number (used to construct Compute Engine SA email)\n"
      ++ "data \"google_project\" \"project\" \x7b\n  project_id = var.project_id\n\x7d\n\n"
      ++ "# Service account emails (computed from known values at plan time)\n"
      ++ "locals \x7b\n  compute_sa_email = \"$\x7bdata.google_project.project.number\x7d"
      ++ "-compute@developer.gserviceaccount.com\"\n"
      ++ sa_emails_block ++ "\n\x7d\n\n"
  let deployerBlock :=
    "# Deployer Service Account Permissions\n"
      ++ "# Grant deployer SA Cloud Run Admin role\n"
      ++ "resource \"google_project_iam_member\" \"deployer_cloudrun_admin\" \x7b\n"
      ++ "  project = var.project_id\n  role    = \"roles/run.admin\"\n"
      ++ "  member  = \"serviceAccount:$\x7b" ++ deployer_sa_email ++ "\x7d\"\n\x7d\n\n"
      ++ "# Grant deployer SA permission to act as Compute Engine SA (required for Cloud Run deployments)\n"
      ++ "resource \"google_service_account_iam_member\" \"deployer_compute_sa_user\" \x7b\n"
      ++ "  service_account_id = \"projects/$\x7bvar.project_id\x7d/serviceAccounts/$\x7blocal.compute_sa_email\x7d\"\n"
      ++ "  role               = \"roles/iam.serviceAccountUser\"\n"
      ++ "  member             = \"serviceAccount:$\x7b" ++ deployer_sa_email ++ "\x7d\"\n\x7d\n"
  let perService := cloud_run_services.flatMap (fun s =>
    let service_type := s.type_.getD "backend"
    let sa_name := sa_prefix ++ "-" ++ service_type ++ "-app"
    let resource_name := replaceChar '-' '_' sa_name
    let saBlock :=
      "\n# Service Account for Cloud Run " ++ service_type ++ "\n"
        ++ "resource \"google_service_account\" \"" ++ resource_name ++ "\" \x7b\n"
        ++ "  account_id   = \"" ++ sa_name ++ "\"\n"
        ++ "  display_name = \"" ++ project ++ " " ++ pyCapitalize service_type
        ++ " Application\"\n  project      = var.project_id\n\x7d\n\n"
        ++ "# Grant deployer permission to act as " ++ service_type ++ " SA\n"
        ++ "resource \"google_service_account_iam_member\" \"deployer_" ++ resource_name
        ++ "_user\" \x7b\n  service_account_id = google_service_account."
        ++ resource_name ++ ".id\n"
        ++ "  role               = \"roles/iam.serviceAccountUser\"\n"
        ++ "  member             = \"serviceAccount:$\x7b" ++ deployer_sa_email
        ++ "\x7d\"\n\x7d\n"
    let dbBlock :=
      if has_database then
        ["\n# Grant Cloud SQL Client role to " ++ service_type ++ "\n"
          ++ "resource \"google_project_iam_member\" \"" ++ resource_name
          ++ "_cloudsql_client\" \x7b\n  project = var.project_id\n"
          ++ "  role    = \"roles/cloudsql.client\"\n"
          ++ "  member  = \"serviceAccount:$\x7bgoogle_service_account."
          ++ resource_name ++ ".email\x7d\"\n\x7d\n\n"
          ++ "# Grant Cloud SQL Instance User role for IAM authentication\n"
          ++ "resource \"google_project_iam_member\" \"" ++ resource_name
          ++ "_cloudsql_instance_user\" \x7b\n  project = var.project_id\n"
          ++ "  role    = \"roles/cloudsql.instanceUser\"\n"
          ++ "  member  = \"serviceAccount:$\x7bgoogle_service_account."
          ++ resource_name ++ ".email\x7d\"\n\x7d\n"]
      else []
    let vertexBlock :=
      if enable_vertex_ai && service_type == "backend" then
        ["\n# Grant Vertex AI User role to " ++ service_type ++ "\n"
          ++ "resource \"google_project_iam_member\" \"" ++ resource_name
          ++ "_vertexai_user\" \x7b\n  project = var.project_id\n"
          ++ "  role    = \"roles/aiplatform.user\"\n"
          ++ "  member  = \"serviceAccount:$\x7bgoogle_service_account."
          ++ resource_name ++ ".email\x7d\"\n\x7d\n"]
      else []
    let outBlock :=
      "\noutput \"" ++ resource_name ++ "_sa_email\" \x7b\n"
        ++ "  description = \"Email of the " ++ service_type ++ " service account\"\n"
        ++ "  value       = google_service_account." ++ resource_name ++ ".email\n\x7d\n"
    saBlock :: dbBlock ++ vertexBlock ++ [outBlock])
  let importedSas := accounts.filterMap (fun sa =>
    let original_account_id := (sa.email.toList.takeWhile (fun c => c ≠ '@')).asString
    let display_name := sa.display_name.getD original_account_id
    let resource_name := sanitize_terraform_name sa.email "service_account"
    if headIsDigit original_account_id.toList then none
    else some ("\n# Service Account: " ++ original_account_id ++ "\n"
      ++ "resource \"google_service_account\" \"" ++ resource_name ++ "\" \x7b\n"
      ++ "  account_id   = \"" ++ original_account_id ++ "\"\n"
      ++ "  display_name = \"" ++ display_name ++ "\"\n"
      ++ "  project      = var.project_id\n\x7d\n"))
  String.intercalate "\n"
    (["# Service Accounts\n", localsBlock, deployerBlock] ++ perService ++ importedSas)

def generate_cloud_run_module (project : String) (s : ServiceRes)
    (project_slug : String) (has_database : Bool) : String :=
  let _ := project
  let service_name := s.name
  let service_type := s.type_.getD "backend"
  let region := s.region.getD "europe-north2"
  let sa_name := project_slug ++ "-" ++ service_type ++ "-app"
  let sa_resource_name := replaceChar '-' '_' sa_name
  let vpc_connector_config :=
    if has_database then
      "\n  # Connect to VPC for Cloud SQL access\n  vpc_connector_name = data.google_vpc_access_connector.cloud_run_connector.id\n"
    else ""
  let sa_config :=
    "\n  # Use custom service account\n  service_account_email = local."
      ++ sa_resource_name ++ "_email\n"
  let module_name := replaceChar '-' '_' service_name
  "\n# " ++ service_name ++ " (" ++ service_type ++ ")\n"
    ++ "# Note: Initial deployment uses placeholder image (gcr.io/cloudrun/hello)\n"
    ++ "# Your CI/CD pipeline will deploy the real application image\n"
    ++ "# Terraform manages infrastructure; CI/CD manages deployments\n"
    ++ "module \"" ++ module_name ++ "\" \x7b\n  source = \"./modules/cloud-run-app\"\n\n"
    ++ "  project_id   = var.project_id\n  service_name = \"" ++ service_name
    ++ "\"\n  region       = \"" ++ region ++ "\"\n\n"
    ++ "  # image defaults to gcr.io/cloudrun/hello for initial deployment\n"
    ++ "  # CI/CD will update to real image via Cloud Build\n"
    ++ "  # See modules/cloud-run-app/README.md for details\n"
    ++ sa_config ++ vpc_connector_config
    ++ "\n  labels = local.labels\n\x7d"

/-- generate_cloud_run_tf in normal (non-append) mode, as called by
generate_terraform_config.  Both Create and AdoptExisting services render
the same module text (generate_cloud_run_import_module delegates to
generate_cloud_run_module). -/
def generate_cloud_run_tf (client project : String) (services : List ServiceRes)
    (has_database : Bool) : String :=
  let _ := client
  let project_slug := slugFull project
  String.intercalate "\n"
    ("# Cloud Run Services\n"
      :: services.map (fun s => generate_cloud_run_module project s project_slug has_database))

def generate_cloud_sql_module (project : String) (db : SqlRes) : String :=
  let db_name := db.name
  let db_version := db.database_version.getD "POSTGRES_15"
  let tier := db.tier.getD "db-g1-small"
  let project_slug := slugFull project
  let backend_sa_resource := replaceChar '-' '_' (project_slug ++ "-backend-app")
  let module_name := replaceChar '-' '_' db_name
  let enable_backups := if db.backups.getD true then "true" else "false"
  "\n# Cloud SQL: " ++ db_name ++ "\nmodule \"" ++ module_name ++ "\" \x7b\n"
    ++ "  source = \"./modules/database-cloudsql\"\n\n"
    ++ "  project_id       = var.project_id\n  instance_name    = \"" ++ db_name
    ++ "\"\n  database_version = \"" ++ db_version ++ "\"\n  tier             = \""
    ++ tier ++ "\"\n  region           = var.region\n\n"
    ++ "  enable_backups = " ++ enable_backups ++ "\n\n"
    ++ "  # Network configuration - use Shared VPC for private connectivity\n"
    ++ "  private_network = data.google_compute_network.shared_vpc.id\n"
    ++ "  public_ip       = false\n\n"
    ++ "  # IAM user for application service account\n"
    ++ "  app_service_account_email = local." ++ backend_sa_resource ++ "_email\n\n"
    ++ "  labels = local.labels\n\n  depends_on = [\n"
    ++ "    google_project_service.required_apis[\"sqladmin.googleapis.com\"],\n"
    ++ "    google_project_service.required_apis[\"servicenetworking.googleapis.com\"]\n"
    ++ "  ]\n\x7d"

/-- generate_cloud_sql_tf; Create and AdoptExisting render the same module. -/
def generate_cloud_sql_tf (client project : String) (instances : List SqlRes) : String :=
  let _ := client
  String.intercalate "\n"
    ("# Cloud SQL Databases\n" :: instances.map (fun db => generate_cloud_sql_module project db))

def generate_migration_job_tf (client project database_instance_name : String) : String :=
  let _ := client
  let project_slug := slugNoCollapse project
  let job_name := project_slug ++ "-db-migrations"
  let backend_sa_resource := replaceChar '-' '_' (project_slug ++ "-backend-app")
  let db_module_name := replaceChar '-' '_' database_instance_name
  "# Database Migration Job\n\nmodule \"db_migrations\" \x7b\n"
    ++ "  source = \"./modules/cloud-run-migration-job\"\n\n"
    ++ "  project_id                = var.project_id\n"
    ++ "  job_name                  = \"" ++ job_name ++ "\"\n"
    ++ "  region                    = var.region\n"
    ++ "  service_account_email     = local." ++ backend_sa_resource ++ "_email\n"
    ++ "  deployer_sa_email         = google_service_account.deployer.email\n"
    ++ "  cloud_sql_connection_name = module." ++ db_module_name ++ ".connection_name\n"
    ++ "  vpc_connector_name        = data.google_vpc_access_connector.cloud_run_connector.id\n\n"
    ++ "  env_vars = \x7b\n    MIGRATION_TOOL = \"alembic\"  # Adjust based on your migration tool\n  \x7d\n\n"
    ++ "  labels = local.labels\n\n  depends_on = [\n"
    ++ "    google_project_service.required_apis[\"run.googleapis.com\"],\n"
    ++ "    module." ++ db_module_name ++ ",\n"
    ++ "    google_service_account." ++ backend_sa_resource ++ "\n  ]\n\x7d"

def generate_firestore_module (db : FirestoreRes) : String :=
  "\n# Firestore Database\nmodule \"firestore\" \x7b\n"
    ++ "  source = \"./modules/database-firestore\"\n\n"
    ++ "  project_id = var.project_id\n  location   = \"" ++ db.location.getD "eur3"
    ++ "\"\n  mode       = \"" ++ db.mode.getD "FIRESTORE_NATIVE" ++ "\"\n\n"
    ++ "  labels = local.labels\n\n  depends_on = [\n"
    ++ "    google_project_service.required_apis[\"firestore.googleapis.com\"]\n  ]\n\x7d"

/-- generate_firestore_tf: only databases marked for creation get a module. -/
def generate_firestore_tf (databases : List FirestoreRes) : String :=
  String.intercalate "\n"
    ("# Firestore Database\n"
      :: (databases.filter (fun db => db.create)).map generate_firestore_module)

def generate_storage_module (bucket : BucketRes) : String :=
  let bucket_name := bucket.name
  let location := bucket.location.getD "europe-north2"
  let module_name := sanitize_terraform_name bucket_name "bucket"
  "\n# Storage: " ++ bucket_name ++ "\nmodule \"" ++ module_name ++ "\" \x7b\n"
    ++ "  source = \"./modules/storage-bucket\"\n\n"
    ++ "  project_id  = var.project_id\n  bucket_name = \"" ++ bucket_name
    ++ "\"\n  location    = \"" ++ location ++ "\"\n\n  labels = local.labels\n\x7d"

/-- generate_storage_tf; Create and AdoptExisting render the same module. -/
def generate_storage_tf (buckets : List BucketRes) : String :=
  String.intercalate "\n"
    ("# Storage Buckets\n" :: buckets.map generate_storage_module)

def generate_secrets_tf (secrets : List SecretRes) : String :=
  String.intercalate "\n"
    ("# Secrets\n" :: secrets.map (fun sec =>
      let resource_name := replaceChar '-' '_' sec.name
      "\n# Secret: " ++ sec.name ++ "\nresource \"google_secret_manager_secret\" \""
        ++ resource_name ++ "\" \x7b\n  secret_id = \"" ++ sec.name
        ++ "\"\n  project   = var.project_id\n\n  replication \x7b\n    auto \x7b\x7d\n  \x7d\n\n"
        ++ "  labels = local.labels\n\x7d\n"))

def generate_vpc_tf : String :=
  "# Shared VPC Configuration\n"
    ++ "# This project is attached as a service project to the platform\x27s shared VPC\n\n"
    ++ "# Data source to reference shared VPC from host project\n"
    ++ "data \"google_compute_network\" \"shared_vpc\" \x7b\n"
    ++ "  name    = var.shared_vpc_name\n  project = var.shared_vpc_project\n\x7d"

def generate_vpc_connector_tf : String :=
  "# VPC Access Connector for Cloud Run to Cloud SQL\n"
    ++ "# Required for Cloud Run to connect to Cloud SQL private IP\n#\n"
    ++ "# NOTE: For Shared VPC, the VPC connector is created in the HOST project\n"
    ++ "# (solvigo-platform-prod) and shared with all service projects.\n"
    ++ "# We reference the existing shared connector here rather than creating it.\n\n"
    ++ "data \"google_vpc_access_connector\" \"cloud_run_connector\" \x7b\n"
    ++ "  name    = \"solvigo-connector-n2\"\n  project = var.shared_vpc_project\n"
    ++ "  region  = \"europe-north2\"\n\x7d\n\n"
    ++ "output \"vpc_connector_name\" \x7b\n"
    ++ "  description = \"VPC connector full name for Cloud Run\"\n"
    ++ "  value       = data.google_vpc_access_connector.cloud_run_connector.id\n\x7d"

/-! ## Import directives (generate_imports_tf)

The directives are modelled both as data (target address, external id) and
as the emitted text.  The per-resource loops of the source translate to the
following recursions. -/

/-- Cloud Run import loop: one directive per service not marked for creation. -/
def cloudRunImportEntries (pid : String) : List ServiceRes → List (String × String)
  | [] => []
  | s :: rest =>
    if s.create then cloudRunImportEntries pid rest
    else
      ("module." ++ replaceChar '-' '_' s.name ++ ".google_cloud_run_service.service",
        "locations/" ++ s.region.getD "europe-north2" ++ "/namespaces/" ++ pid
          ++ "/services/" ++ s.name)
        :: cloudRunImportEntries pid rest

/-- Storage import loop: one directive per bucket not marked for creation. -/
def storageImportEntries : List BucketRes → List (String × String)
  | [] => []
  | b :: rest =>
    if b.create then storageImportEntries rest
    else
      ("module." ++ sanitize_terraform_name b.name "bucket" ++ ".google_storage_bucket.bucket",
        b.name) :: storageImportEntries rest

/-- Secret import loop: one directive per secret, with no mode check. -/
def secretImportEntries (pid : String) : List SecretRes → List (String × String)
  | [] => []
  | sec :: rest =>
    ("google_secret_manager_secret." ++ replaceChar '-' '_' sec.name,
      "projects/" ++ pid ++ "/secrets/" ++ sec.name)
      :: secretImportEntries pid rest

/-- Service account import loop: one directive per account, with no mode check. -/
def saImportEntries (pid : String) : List SaRes → List (String × String)
  | [] => []
  | sa :: rest =>
    ("google_service_account." ++ sanitize_terraform_name sa.email "service_account",
      "projects/" ++ pid ++ "/serviceAccounts/" ++ sa.email)
      :: saImportEntries pid rest

/-- Cloud SQL import loop: one directive per instance not marked for creation. -/
def sqlImportEntries : List SqlRes → List (String × String)
  | [] => []
  | db :: rest =>
    if db.create then sqlImportEntries rest
    else
      ("module." ++ replaceChar '-' '_' db.name ++ ".google_sql_database_instance.instance",
        db.name) :: sqlImportEntries rest

/-- The deployer service-account directive emitted unconditionally at the top
of imports.tf. -/
def deployerImportEntry (pid : String) : String × String :=
  ("google_service_account.deployer",
    "projects/" ++ pid ++ "/serviceAccounts/deployer@" ++ pid ++ ".iam.gserviceaccount.com")

/-- All non-deployer directives, in emission order. -/
def nonDeployerImportEntries (sel : Selection) (pid : String) : List (String × String) :=
  cloudRunImportEntries pid sel.cloud_run
    ++ storageImportEntries sel.storage
    ++ secretImportEntries pid sel.secrets
    ++ saImportEntries pid sel.service_accounts
    ++ sqlImportEntries sel.cloud_sql

/-- Every directive emitted into imports.tf, in order. -/
def importEntries (sel : Selection) (pid : String) : List (String × String) :=
  deployerImportEntry pid :: nonDeployerImportEntries sel pid

/-- The uniform text of one non-deployer import block. -/
def renderImportBlock (e : String × String) : String :=
  "import \x7b\n  to = " ++ e.1 ++ "\n  id = \"" ++ e.2 ++ "\"\n\x7d\n"

def generate_imports_tf (client project : String) (sel : Selection)
    (gcp_project_id : String) : String :=
  let _ := client
  let _ := project
  let project_id := gcp_project_id
  let deployerBlock :=
    "# Deployer Service Account (created via CLI bootstrap)\nimport \x7b\n"
      ++ "  to = google_service_account.deployer\n  id = \"projects/" ++ project_id
      ++ "/serviceAccounts/deployer@" ++ project_id ++ ".iam.gserviceaccount.com\"\n\x7d\n\n"
  String.intercalate "\n"
    (["# Terraform Import Blocks\n",
      "# These import blocks will bring existing GCP resources into Terraform state\n\n",
      deployerBlock]
      ++ (nonDeployerImportEntries sel project_id).map renderImportBlock)

def generate_outputs_tf (client project : String) (sel : Selection) : String :=
  let _ := client
  let _ := project
  String.intercalate "\n"
    ("# Outputs\n"
      :: sel.cloud_run.map (fun s =>
          let module_name := replaceChar '-' '_' s.name
          "\noutput \"" ++ module_name ++ "_url\" \x7b\n  description = \"URL for "
            ++ s.name ++ "\"\n  value       = module." ++ module_name
            ++ ".service_url\n\x7d\n")
      ++ sel.cloud_sql.map (fun db =>
          let module_name := replaceChar '-' '_' db.name
          "\noutput \"" ++ module_name ++ "_connection\" \x7b\n"
            ++ "  description = \"Connection name for " ++ db.name
            ++ "\"\n  value       = module." ++ module_name
            ++ ".connection_name\n  sensitive   = true\n\x7d\n"))

/-! ## generate_terraform_config as a sequence of file writes

The destination directory is modelled as a map from file name to optional
content; every generator ends in write_text, an unconditional overwrite.
copy_terraform_modules copies a bundled module directory when absent and
writes no artifact file, so it does not appear in the write list. -/

/-- Name of the first Cloud SQL instance (the source indexes [0] under a
nonempty guard). -/
def headSqlName : List SqlRes → String
  | [] => ""
  | db :: _ => db.name

/-- The ordered list of (file name, content) pairs written by
generate_terraform_config. -/
def terraformWrites (client project : String) (sel : Selection)
    (gcp_project_id : String) (client_subdomain project_subdomain : Option String)
    : List (String × String) :=
  let has_database := !sel.cloud_sql.isEmpty || !sel.firestore.isEmpty
  let enable_vertex_ai := !sel.apis.isEmpty && sel.apis.contains "aiplatform.googleapis.com"
  [("backend.tf", generate_backend_tf client project),
   ("variables.tf", generate_variables_tf client project gcp_project_id),
   ("main.tf", generate_main_tf client project),
   ("deployer-sa.tf", generate_deployer_sa_tf),
   ("apis.tf", generate_apis_tf sel),
   ("service-accounts.tf",
     generate_service_accounts_tf client project sel.service_accounts sel.cloud_run
       has_database enable_vertex_ai client_subdomain project_subdomain)]
  ++ (if !sel.cloud_run.isEmpty then
        [("cloud-run.tf", generate_cloud_run_tf client project sel.cloud_run has_database)]
      else [])
  ++ (if !sel.cloud_sql.isEmpty then
        [("database-sql.tf", generate_cloud_sql_tf client project sel.cloud_sql),
         ("migration-job.tf", generate_migration_job_tf client project (headSqlName sel.cloud_sql))]
      else [])
  ++ (if !sel.firestore.isEmpty then
        [("database-firestore.tf", generate_firestore_tf sel.firestore)]
      else [])
  ++ (if !sel.storage.isEmpty then [("storage.tf", generate_storage_tf sel.storage)] else [])
  ++ (if !sel.secrets.isEmpty then [("secrets.tf", generate_secrets_tf sel.secrets)] else [])
  ++ (if has_database && !sel.cloud_run.isEmpty then
        [("vpc.tf", generate_vpc_tf), ("vpc-connector.tf", generate_vpc_connector_tf)]
      else [])
  ++ [("imports.tf", generate_imports_tf client project sel gcp_project_id),
      ("outputs.tf", generate_outputs_tf client project sel)]

/-- write_text: unconditional overwrite of one file. -/
def fsWrite (st : String → Option String) (name content : String) :
    String → Option String :=
  fun m => if m = name then some content else st m

/-- Apply a sequence of writes in order. -/
def applyWrites : List (String × String) → (String → Option String) → (String → Option String)
  | [], st => st
  | w :: ws, st => applyWrites ws (fsWrite st w.1 w.2)

/-- generate_terraform_config as a file-system transformer. -/
def generate_terraform_config (client project : String) (sel : Selection)
    (gcp_project_id : String) (client_subdomain project_subdomain : Option String)
    (st : String → Option String) : String → Option String :=
  applyWrites (terraformWrites client project sel gcp_project_id client_subdomain project_subdomain) st

/-- First write of a given file in a write list, if any. -/
def findContent (ws : List (String × String)) (name : String) : Option String :=
  match ws with
  | [] => none
  | w :: rest => if w.1 = name then some w.2 else findContent rest name

/-! ## utils/bootstrap.py

The gcloud control plane is modelled as an oracle mapping an argument list
to (success, stdout-or-stderr); run_gcloud never raises (it catches
CalledProcessError and returns the failure).  Every issued command is
appended to an explicit trace, which makes the execution order of the
bootstrap steps a provable property. -/

/-- Python str.strip() whitespace characters. -/
def pyIsSpace (c : Char) : Bool :=
  c == ' ' || c == '\t' || c == '\n' || c == '\r' || c.toNat = 11 || c.toNat = 12

/-- Python str.strip() with no arguments. -/
def pyStripWS (s : String) : String :=
  (stripWSList s.toList).asString
where stripWSList (l : List Char) : List Char :=
  ((l.dropWhile pyIsSpace).reverse.dropWhile pyIsSpace).reverse

/-- A gcloud oracle: argument list to (success, output). -/
def GcloudEnv : Type := List String → Bool × String

/-- run_gcloud: consult the oracle and record the issued command. -/
def run_gcloud (env : GcloudEnv) (cmd : List String) (tr : List (List String)) :
    (Bool × String) × List (List String) :=
  (env cmd, tr ++ [cmd])

/-- create_state_bucket: probe, create when absent, then enable versioning
(result of the versioning update is ignored by the source). -/
def create_state_bucket (env : GcloudEnv) (project_id region bucket_name : String)
    (tr : List (List String)) : Bool × List (List String) :=
  let r1 := run_gcloud env
    ["storage", "buckets", "describe", "gs://" ++ bucket_name, "--project", project_id] tr
  if r1.1.1 then (true, r1.2)
  else
    let r2 := run_gcloud env
      ["storage", "buckets", "create", "gs://" ++ bucket_name, "--project", project_id,
       "--location", region, "--uniform-bucket-level-access"] r1.2
    if r2.1.1 then
      let r3 := run_gcloud env
        ["storage", "buckets", "update", "gs://" ++ bucket_name, "--versioning"] r2.2
      (true, r3.2)
    else (false, r2.2)

/-- The three project roles granted to the deployer service account. -/
def deployerRoles : List String :=
  ["roles/run.admin", "roles/secretmanager.secretAccessor", "roles/artifactregistry.writer"]

/-- create_deployer_sa: probe, create when absent (early failure return),
then unconditionally re-assert role grants and impersonation bindings,
whose individual results are ignored by the source. -/
def create_deployer_sa (env : GcloudEnv) (project_id sa_name : String)
    (tr : List (List String)) : (Bool × String) × List (List String) :=
  let sa_email := sa_name ++ "@" ++ project_id ++ ".iam.gserviceaccount.com"
  let r1 := run_gcloud env
    ["iam", "service-accounts", "describe", sa_email, "--project", project_id] tr
  let saExists := r1.1.1
  let afterCreate : Bool × List (List String) :=
    if saExists then (true, r1.2)
    else
      let r2 := run_gcloud env
        ["iam", "service-accounts", "create", sa_name, "--project", project_id,
         "--display-name", "Cloud Build Deployer",
         "--description", "Service account for deploying services via Cloud Build"] r1.2
      (r2.1.1, r2.2)
  if !afterCreate.1 then ((false, sa_email), afterCreate.2)
  else
    let tr := deployerRoles.foldl (fun tr role =>
      (run_gcloud env
        ["projects", "add-iam-policy-binding", project_id,
         "--member", "serviceAccount:" ++ sa_email, "--role", role, "--condition=None"] tr).2)
      afterCreate.2
    let tr := (run_gcloud env
      ["iam", "service-accounts", "add-iam-policy-binding", sa_email,
       "--member", "serviceAccount:" ++ project_id ++ "@cloudbuild.gserviceaccount.com",
       "--role", "roles/iam.serviceAccountUser", "--project", project_id] tr).2
    let tr := (run_gcloud env
      ["iam", "service-accounts", "add-iam-policy-binding", sa_email,
       "--member", "serviceAccount:registry-api@solvigo-platform-prod.iam.gserviceaccount.com",
       "--role", "roles/iam.serviceAccountUser", "--project", project_id] tr).2
    let tr := (run_gcloud env
      ["iam", "service-accounts", "add-iam-policy-binding", sa_email,
       "--member", "serviceAccount:" ++ PLATFORM_PROJECT_NUMBER ++ "@cloudbuild.gserviceaccount.com",
       "--role", "roles/iam.serviceAccountUser", "--project", project_id] tr).2
    let tr := (run_gcloud env
      ["iam", "service-accounts", "add-iam-policy-binding", sa_email,
       "--member", "serviceAccount:" ++ PLATFORM_PROJECT_NUMBER ++ "@cloudbuild.gserviceaccount.com",
       "--role", "roles/iam.serviceAccountTokenCreator", "--project", project_id] tr).2
    let tr := (run_gcloud env
      ["projects", "add-iam-policy-binding", project_id,
       "--member", "serviceAccount:registry-api@solvigo-platform-prod.iam.gserviceaccount.com",
       "--role", "roles/iam.serviceAccountUser"] tr).2
    ((true, sa_email), tr)

/-- grant_vpc_connector_permission: resolve the project number, derive the
serverless service agent, grant roles/vpcaccess.user in the host project;
an ALREADY_EXISTS response counts as success. -/
def grant_vpc_connector_permission (env : GcloudEnv) (project_id host_project : String)
    (tr : List (List String)) : Bool × List (List String) :=
  let r1 := run_gcloud env
    ["projects", "describe", project_id, "--format", "value(projectNumber)"] tr
  if !r1.1.1 then (false, r1.2)
  else
    let project_number := pyStripWS r1.1.2
    let service_agent :=
      "service-" ++ project_number ++ "@serverless-robot-prod.iam.gserviceaccount.com"
    let r2 := run_gcloud env
      ["projects", "add-iam-policy-binding", host_project,
       "--member", "serviceAccount:" ++ service_agent,
       "--role", "roles/vpcaccess.user", "--condition=None"] r1.2
    if r2.1.1 || containsSubStr "ALREADY_EXISTS" r2.1.2 then (true, r2.2)
    else (false, r2.2)

structure BootstrapResults where
  state_bucket : Bool
  deployer_sa : Bool
  deployer_sa_email : String
  vpc_access : Bool
deriving DecidableEq

/-- bootstrap_infrastructure: state bucket, then deployer service account,
then (when enabled) the VPC connector grant; the skipped grant is recorded
as success. -/
def bootstrap_infrastructure (env : GcloudEnv)
    (project_id region bucket_name : String) (grant_vpc_access : Bool) :
    BootstrapResults × List (List String) :=
  let sb := create_state_bucket env project_id region bucket_name []
  let ds := create_deployer_sa env project_id "deployer" sb.2
  let va :=
    if grant_vpc_access then
      grant_vpc_connector_permission env project_id "solvigo-platform-prod" ds.2
    else (true, ds.2)
  ({ state_bucket := sb.1, deployer_sa := ds.1.1, deployer_sa_email := ds.1.2,
     vpc_access := va.1 }, va.2)

/-! ## gcp/errors.py : handle_gcp_error

Exceptions are modelled as a sum covering the isinstance chain of the
source: one constructor per recognized google.api_core exception class, one
for any other GoogleAPICallError (carrying the rendering of its code
attribute, which is the string "None" for the base class), and one for a
non-GCP exception carrying its type name and message.  The recognized
classes carry their fixed HTTP code class attributes. -/

inductive PyError
  | alreadyExists (msg : String)
  | permissionDenied (msg : String)
  | notFound (msg : String)
  | invalidArgument (msg : String)
  | failedPrecondition (msg : String)
  | deadlineExceeded (msg : String)
  | resourceExhausted (msg : String)
  | unauthenticated (msg : String)
  | googleAPICallError (codeStr : String) (msg : String)
  | other (typeName : String) (msg : String)
deriving DecidableEq

/-- GCPErrorDetail.to_dict keeps only the keys that were set;
required_permissions is never set by handle_gcp_error and is omitted. -/
structure GCPErrorDetail where
  error_type : String
  message : String
  gcp_error_code : Option String
  remediation : Option String
  resource_name : Option String
deriving DecidableEq

inductive HDetail
  | text (s : String)
  | gcp (d : GCPErrorDetail)
deriving DecidableEq

structure HTTPExceptionM where
  status_code : Nat
  detail : HDetail
deriving DecidableEq

def HDetail.errorTypeOf : HDetail → Option String
  | .text _ => none
  | .gcp d => some d.error_type

/-- handle_gcp_error: the ordered isinstance chain of the source.  The
operation argument is only logged. -/
def handle_gcp_error (error : PyError) (operation : String)
    (resource_name : Option String) : HTTPExceptionM :=
  let _ := operation
  match error with
  | .alreadyExists _ =>
    { status_code := 409, detail := HDetail.gcp (
      { error_type := "AlreadyExists",
        message := "Resource already exists: " ++ pyOrStr resource_name "unnamed",
        gcp_error_code := some "409",
        remediation := some "Resource already exists. This is normal for idempotent operations.",
        resource_name }) }
  | .permissionDenied _ =>
    { status_code := 403, detail := HDetail.gcp (
      { error_type := "PermissionDenied",
        message := "Admin API service account lacks required permissions",
        gcp_error_code := some "403",
        remediation := some "Contact platform administrator to grant required IAM roles",
        resource_name }) }
  | .notFound _ =>
    { status_code := 404, detail := HDetail.gcp (
      { error_type := "NotFound",
        message := "Resource not found: " ++ pyOrStr resource_name "unnamed",
        gcp_error_code := some "404",
        remediation := some "Verify the resource name/ID is correct",
        resource_name }) }
  | .invalidArgument m =>
    { status_code := 400, detail := HDetail.gcp (
      { error_type := "InvalidArgument",
        message := "Invalid request parameters: " ++ m,
        gcp_error_code := some "400",
        remediation := some "Check the request parameters and try again",
        resource_name }) }
  | .failedPrecondition m =>
    { status_code := 400, detail := HDetail.gcp (
      { error_type := "FailedPrecondition",
        message := "Operation cannot be performed: " ++ m,
        gcp_error_code := some "400",
        remediation := some "Verify that prerequisite operations have completed",
        resource_name }) }
  | .deadlineExceeded _ =>
    { status_code := 504, detail := HDetail.gcp (
      { error_type := "DeadlineExceeded",
        message := "Operation timed out",
        gcp_error_code := some "504",
        remediation := some "Try again. Some operations (like API enablement) can take several minutes.",
        resource_name }) }
  | .resourceExhausted _ =>
    { status_code := 429, detail := HDetail.gcp (
      { error_type := "ResourceExhausted",
        message := "GCP quota or rate limit exceeded",
        gcp_error_code := some "429",
        remediation := some "Wait and retry, or request quota increase",
        resource_name }) }
  | .unauthenticated _ =>
    { status_code := 401, detail := HDetail.gcp (
      { error_type := "Unauthenticated",
        message := "GCP authentication failed",
        gcp_error_code := some "401",
        remediation := some "Verify Admin API service account credentials",
        resource_name }) }
  | .googleAPICallError codeStr m =>
    { status_code := 500, detail := HDetail.gcp (
      { error_type := "GoogleAPIError",
        message := "GCP API error: " ++ m,
        gcp_error_code := some codeStr,
        remediation := some "Check GCP service status and try again",
        resource_name }) }
  | .other typeName m =>
    { status_code := 500, detail := HDetail.gcp (
      { error_type := typeName,
        message := "Unexpected error: " ++ m,
        gcp_error_code := none,
        remediation := some "Contact platform administrator",
        resource_name }) }

/-! ## routers/platform.py : create_build_triggers

The per-environment trigger loop (after the repository has been resolved)
is embedded over two oracles: the Cloud Build create call, keyed by the
built trigger, and the list_build_triggers call used in the AlreadyExists
fallback.  The diagnostic phases of the source swallow their own exceptions
and produce only log output, so they do not appear here; the remaining
fields of the trigger object (description, substitutions, service account)
are constants derived from request metadata and are not consulted by any
claim. -/

/-- schemas.EnvironmentTriggerConfig. -/
structure EnvCfg where
  name : String
  branch_pattern : Option String
  tag_pattern : Option String
  cloudbuild_file : String
  require_approval : Bool
deriving DecidableEq

inductive PushFilter
  | branch (pattern : String)
  | tag (pattern : String)
deriving DecidableEq

structure BuiltTrigger where
  name : String
  filter : PushFilter
deriving DecidableEq

structure ExistingTrigger where
  id : String
  name : String
  resource_name : String
deriving DecidableEq

/-- One entry of triggers_created; dict keys absent in a given branch are
modelled as none. -/
structure TriggerRecord where
  environment : String
  trigger_id : Option String
  trigger_name : String
  branch_pattern : Option String
  tag_pattern : Option String
  cloudbuild_file : Option String
  resource_name : Option String
  status : Option String
deriving DecidableEq

/-- Outcome of the create_build_trigger control-plane call. -/
inductive CreateOutcome
  | success (id name resource_name : String)
  | alreadyExists
  | failure (e : PyError)
deriving DecidableEq

/-- Lines 692-712: determine the push filter for one environment, or raise
the 400 configuration error when neither pattern is truthy. -/
def eventConfigFor (env : EnvCfg) : Except HTTPExceptionM PushFilter :=
  if pyTruthy env.branch_pattern then .ok (.branch (env.branch_pattern.getD ""))
  else if pyTruthy env.tag_pattern then .ok (.tag (env.tag_pattern.getD ""))
  else .error
    { status_code := 400,
      detail := HDetail.text
        ("Environment " ++ env.name ++ " must specify either branch_pattern or tag_pattern") }

/-- The per-environment loop with its accumulated triggers_created list.  A
raised HTTPException (validation failure, or a classified non-AlreadyExists
control-plane failure) propagates and aborts the remaining environments. -/
def createTriggersGo (project_id : String)
    (create : BuiltTrigger → CreateOutcome)
    (listTriggers : Except Unit (List ExistingTrigger)) :
    List EnvCfg → List TriggerRecord → Except HTTPExceptionM (List TriggerRecord)
  | [], acc => .ok acc
  | env :: rest, acc =>
    let trigger_name := project_id ++ "-" ++ env.name
    match eventConfigFor env with
    | .error e => .error e
    | .ok filt =>
      match create { name := trigger_name, filter := filt } with
      | .success tid tnm trn =>
        createTriggersGo project_id create listTriggers rest
          (acc ++ [{ environment := env.name, trigger_id := some tid,
                     trigger_name := tnm, branch_pattern := env.branch_pattern,
                     tag_pattern := env.tag_pattern,
                     cloudbuild_file := some "cicd/cloudbuild.yaml",
                     resource_name := some trn, status := none }])
      | .alreadyExists =>
        match listTriggers with
        | .ok existing =>
          match existing.find? (fun t => t.name == trigger_name) with
          | some t =>
            createTriggersGo project_id create listTriggers rest
              (acc ++ [{ environment := env.name, trigger_id := some t.id,
                         trigger_name := t.name, branch_pattern := env.branch_pattern,
                         tag_pattern := env.tag_pattern,
                         cloudbuild_file := some "cicd/cloudbuild.yaml",
                         resource_name := some t.resource_name,
                         status := some "already_exists" }])
          | none => createTriggersGo project_id create listTriggers rest acc
        | .error _ =>
          createTriggersGo project_id create listTriggers rest
            (acc ++ [{ environment := env.name, trigger_id := none,
                       trigger_name := trigger_name, branch_pattern := none,
                       tag_pattern := none, cloudbuild_file := none,
                       resource_name := none,
                       status := some "already_exists_unverified" }])
      | .failure e =>
        .error (handle_gcp_error e ("Create trigger for " ++ env.name) (some trigger_name))

structure TriggersResponse where
  status : String
  github_repo : String
  triggers : List TriggerRecord
deriving DecidableEq

/-- create_build_triggers from the start of the environment loop: either
every environment was processed and the single created-status response is
returned, or the first raised exception aborts the request. -/
def create_build_triggers (project_id github_repo : String) (envs : List EnvCfg)
    (create : BuiltTrigger → CreateOutcome)
    (listTriggers : Except Unit (List ExistingTrigger)) :
    Except HTTPExceptionM TriggersResponse :=
  match createTriggersGo project_id create listTriggers envs [] with
  | .error e => .error e
  | .ok recs => .ok { status := "created", github_repo := github_repo, triggers := recs }

/-! ## Theorems -/

theorem mem_of_mem_takeWhile {p : Char → Bool} :
    ∀ {l : List Char} {c : Char}, c ∈ l.takeWhile p → c ∈ l := by
  intro l
  induction l with
  | nil => intro c h; simp at h
  | cons a as ih =>
    intro c h
    rw [List.takeWhile_cons] at h
    by_cases hp : p a
    · simp only [hp, if_true, List.mem_cons] at h
      rcases h with h | h
      · simp [h]
      · exact List.mem_cons_of_mem _ (ih h)
    · simp [hp] at h

theorem mem_of_mem_removeAllFuel (pat : List Char) :
    ∀ (n : Nat) (s : List Char) (c : Char), c ∈ removeAllFuel pat n s → c ∈ s := by
  intro n
  induction n with
  | zero => intro s c h; simp [removeAllFuel] at h
  | succ n ih =>
    intro s c h
    match s with
    | [] => simp [removeAllFuel] at h
    | a :: rest =>
      rw [removeAllFuel] at h
      by_cases hl : leadsWith pat (a :: rest)
      · rw [if_pos hl] at h
        exact List.mem_cons_of_mem _ (List.drop_subset _ _ (ih _ c h))
      · rw [if_neg hl] at h
        rcases List.mem_cons.mp h with h | h
        · simp [h]
        · exact List.mem_cons_of_mem _ (ih _ c h)

theorem mem_of_mem_removeAll (pat s : List Char) (c : Char)
    (h : c ∈ removeAll pat s) : c ∈ s :=
  mem_of_mem_removeAllFuel pat s.length s c h

theorem sanitizeStage5_ascii (name : List Char) (hA : ∀ c ∈ name, c.toNat ≤ 127) :
    ∀ c ∈ sanitizeStage5 name, c.toNat ≤ 127 := by
  intro c hc
  unfold sanitizeStage5 at hc
  rcases List.mem_map.mp hc with ⟨b, hb, rfl⟩
  rcases List.mem_map.mp hb with ⟨d, hd, rfl⟩
  have hd2 : d ∈ name :=
    mem_of_mem_takeWhile (mem_of_mem_removeAll _ _ _ (mem_of_mem_removeAll _ _ _ hd))
  have hdA : d.toNat ≤ 127 := hA d hd2
  by_cases h1 : d == '-' <;> by_cases h2 : d == '.' <;>
    · simp [h1, h2]
      try omega

theorem tfTailChar_of_ascii {c : Char} (hA : c.toNat ≤ 127)
    (h : (pyIsAlnum c || c == '_') = true) : tfTailChar c = true := by
  rw [Bool.or_eq_true, beq_iff_eq] at h
  rcases h with h | h
  · simp only [pyIsAlnum, pyIsAlpha, pyIsDigit, Bool.or_eq_true, decide_eq_true_eq] at h
    simp only [tfTailChar, decide_eq_true_eq]
    omega
  · rw [h]; decide

theorem sanitizeCore_chars (name : List Char) (hA : ∀ c ∈ name, c.toNat ≤ 127) :
    ∀ c ∈ sanitizeCore name, tfTailChar c = true := by
  intro c hc
  unfold sanitizeCore at hc
  rcases List.mem_map.mp hc with ⟨a, ha, rfl⟩
  by_cases h : (pyIsAlnum a || a == '_') = true
  · rw [if_pos h]
    exact tfTailChar_of_ascii (sanitizeStage5_ascii name hA a ha) h
  · rw [if_neg h]; decide

theorem isValidTfIdent_append (p l : List Char) (hp : isValidTfIdent p = true)
    (hl : ∀ c ∈ l, tfTailChar c = true) : isValidTfIdent (p ++ l) = true := by
  cases p with
  | nil => simp [isValidTfIdent] at hp
  | cons a as =>
    simp only [isValidTfIdent, Bool.and_eq_true, List.all_eq_true] at hp
    simp only [List.cons_append, isValidTfIdent, Bool.and_eq_true, List.all_eq_true]
    refine ⟨hp.1, ?_⟩
    intro d hd
    rcases List.mem_append.mp hd with h | h
    · exact hp.2 d h
    · exact hl d h

theorem tfHeadChar_of_tail {c : Char} (ht : tfTailChar c = true)
    (h : (pyIsAlpha c || c == '_') = true) : tfHeadChar c = true := by
  rw [Bool.or_eq_true, beq_iff_eq] at h
  rcases h with h | h
  · simp only [pyIsAlpha, decide_eq_true_eq] at h
    simp only [tfTailChar, decide_eq_true_eq] at ht
    simp only [tfHeadChar, decide_eq_true_eq]
    omega
  · rw [h]; decide

theorem prefixFor_valid (rt : List Char) :
    isValidTfIdent (prefixFor rt) = true ∧ ∀ c ∈ prefixFor rt, tfTailChar c = true := by
  unfold prefixFor
  split_ifs <;> exact ⟨by decide, by decide⟩

theorem isValid_final (l rt : List Char) (hl : ∀ c ∈ l, tfTailChar c = true)
    (hrt : isValidTfIdent rt = true) :
    isValidTfIdent (finalStep l rt) = true := by
  unfold finalStep
  cases l with
  | nil => exact hrt
  | cons c cs =>
    show isValidTfIdent (if pyIsAlpha c || c == '_' then c :: cs else rt ++ '_' :: (c :: cs)) = true
    by_cases h : (pyIsAlpha c || c == '_') = true
    · rw [if_pos h]
      simp only [isValidTfIdent, Bool.and_eq_true, List.all_eq_true]
      exact ⟨tfHeadChar_of_tail (hl c (List.mem_cons_self c cs)) h,
        fun d hd => hl d (List.mem_cons_of_mem _ hd)⟩
    · rw [if_neg h]
      refine isValidTfIdent_append rt ('_' :: c :: cs) hrt ?_
      intro d hd
      rcases List.mem_cons.mp hd with h1 | h1
      · rw [h1]; decide
      · exact hl d h1

/-- C2 (amended): for every raw name whose characters are ASCII and every
resource type string that is itself a valid identifier (which every kind in
the prefix table is), the sanitizer returns a string matching
[A-Za-z_][A-Za-z0-9_]*; determinism and totality hold by construction. -/
theorem sanitize_terraform_name_ascii_valid (name rt : List Char)
    (hA : ∀ c ∈ name, c.toNat ≤ 127) (hrt : isValidTfIdent rt = true) :
    isValidTfIdent (sanitizeChars name rt) = true := by
  have h6 := sanitizeCore_chars name hA
  unfold sanitizeChars
  refine isValid_final (digitStep (sanitizeCore name) rt) rt ?_ hrt
  intro d hdm
  unfold digitStep at hdm
  cases hn : sanitizeCore name with
  | nil =>
    rw [hn] at hdm
    have hdm2 : d ∈ ([] : List Char) := hdm
    simp at hdm2
  | cons c cs =>
    rw [hn] at hdm h6
    have hdm2 : d ∈ (if pyIsDigit c then prefixFor rt ++ c :: cs else c :: cs) := hdm
    by_cases hd : pyIsDigit c = true
    · rw [if_pos hd] at hdm2
      rcases List.mem_append.mp hdm2 with h | h
      · exact (prefixFor_valid rt).2 d h
      · exact h6 d h
    · rw [if_neg hd] at hdm2
      exact h6 d hdm2


/-- C2 (as stated): claimed that for every raw name string including
non-ASCII strings the sanitizer output matches [A-Za-z_][A-Za-z0-9_]*.
Counterexample: the single-character Latin-1 name "é" is alphanumeric for
Python isalnum, survives sanitization unchanged, and does not match the
ASCII identifier pattern. -/
theorem sanitize_terraform_name_nonascii_invalid :
    sanitize_terraform_name "é" "resource" = "é"
    ∧ isValidTfIdent (sanitize_terraform_name "é" "resource").toList = false := by
  constructor
  · decide
  · decide

/-- C2 (amended): for every raw name consisting of ASCII characters and
every resource type string that is itself a valid identifier (which all the
kind strings of the prefix table are), sanitize_terraform_name returns a
string matching [A-Za-z_][A-Za-z0-9_]*; the function is a deterministic,
total, side-effect-free function of (raw name, kind) by construction. -/
theorem sanitize_terraform_name_ascii_matches (name resource_type : String)
    (hA : ∀ c ∈ name.toList, c.toNat ≤ 127)
    (hrt : isValidTfIdent resource_type.toList = true) :
    isValidTfIdent (sanitize_terraform_name name resource_type).toList = true := by
  show isValidTfIdent (sanitizeChars name.toList resource_type.toList) = true
  exact sanitize_terraform_name_ascii_valid _ _ hA hrt

/-- C2 witness: the documented example input evaluated through the amended
theorem. -/
theorem sanitize_terraform_name_ascii_matches_witness :
    (∀ c ∈ "1064-compute@project.iam".toList, c.toNat ≤ 127)
    ∧ isValidTfIdent "service_account".toList = true
    ∧ isValidTfIdent (sanitize_terraform_name "1064-compute@project.iam" "service_account").toList = true :=
  ⟨by decide, by decide,
    sanitize_terraform_name_ascii_matches "1064-compute@project.iam" "service_account"
      (by decide) (by decide)⟩

theorem containsSub_nil_pat : ∀ l : List Char, containsSub [] l = true
  | [] => rfl
  | _ :: _ => by simp [containsSub, leadsWith]

theorem leadsWith_append (p rest : List Char) : leadsWith p (p ++ rest) = true := by
  induction p with
  | nil => rfl
  | cons a as ih => simp [leadsWith, ih]

theorem containsSub_sandwich (pat pre post : List Char) :
    containsSub pat (pre ++ (pat ++ post)) = true := by
  induction pre with
  | nil =>
    cases pat with
    | nil => simpa using containsSub_nil_pat post
    | cons p ps =>
      simp only [containsSub, List.cons_append, Bool.or_eq_true]
      exact Or.inl (leadsWith_append (p :: ps) post)
  | cons c cs ih => simp [containsSub, ih]

theorem strToList_append (a b : String) : (a ++ b).toList = a.toList ++ b.toList :=
  String.data_append a b

/-- C9: the idempotent-append primitive is plain substring containment:
a missing file is created with exactly the content; when the marker occurs
anywhere as a substring of the existing text the file is left unchanged and
False is returned — in particular for any text of the shape
pre ++ marker ++ post, even when the appended block itself never occurred —
otherwise two newlines and the content are appended; the closed instance
shows a block silently skipped because its marker occurs inside other
text. -/
theorem append_to_tf_file_substring_semantics (ex content rid : String) :
    append_to_tf_file none content rid = (some content, true)
    ∧ append_to_tf_file (some ex) content rid =
        (if containsSubStr rid ex then (some ex, false)
         else (some (ex ++ "\n\n" ++ content), true))
    ∧ (∀ pre post : String,
        append_to_tf_file (some (pre ++ rid ++ post)) content rid
          = (some (pre ++ rid ++ post), false))
    ∧ containsSubStr "resource block for api" "# marker for api_service" = false
    ∧ append_to_tf_file (some "# marker for api_service") "resource block for api" "api"
        = (some "# marker for api_service", false) := by
  refine ⟨rfl, rfl, ?_, by decide, by decide⟩
  intro pre post
  have h : containsSubStr rid (pre ++ rid ++ post) = true := by
    unfold containsSubStr
    rw [strToList_append, strToList_append, List.append_assoc]
    exact containsSub_sandwich _ _ _
  simp [append_to_tf_file, h]

/-- C5 (as stated): claimed that an exception whose type is outside the
recognized taxonomy is classified with kind Unexpected.  Counterexample: a
ValueError is classified with error_type "ValueError" (the original type
name); only the message carries the "Unexpected error:" prefix. -/
theorem handle_gcp_error_unexpected_kind_counterexample :
    (handle_gcp_error (PyError.other "ValueError" "boom") "op" none).detail
      = HDetail.gcp
          { error_type := "ValueError", message := "Unexpected error: boom",
            gcp_error_code := none, remediation := some "Contact platform administrator",
            resource_name := none }
    ∧ (handle_gcp_error (PyError.other "ValueError" "boom") "op" none).detail.errorTypeOf
        ≠ some "Unexpected" := by
  refine ⟨rfl, by decide⟩

/-- C5 (amended): the classifier is a total function that always produces a
structured detail with one of the fixed HTTP statuses; for an exception type
outside the recognized taxonomy the returned error_type is the original
exception type name, the message is prefixed "Unexpected error:", and the
remediation says to contact the platform administrator. -/
theorem handle_gcp_error_total_preserves_type (e : PyError) (op : String)
    (rn : Option String) :
    (handle_gcp_error e op rn).status_code ∈ [409, 403, 404, 400, 504, 429, 401, 500]
    ∧ (handle_gcp_error e op rn).detail.errorTypeOf.isSome = true
    ∧ (∀ t m, handle_gcp_error (PyError.other t m) op rn
        = { status_code := 500,
            detail := HDetail.gcp
              { error_type := t, message := "Unexpected error: " ++ m,
                gcp_error_code := none, remediation := some "Contact platform administrator",
                resource_name := rn } }) := by
  refine ⟨?_, ?_, fun t m => rfl⟩
  · cases e <;> simp [handle_gcp_error]
  · cases e <;> rfl

/-- C8 (as stated): claimed that an environment with both a branch pattern
and a tag pattern set is a fatal configuration error.  Counterexample: with
both set, the branch pattern silently wins and the whole request succeeds. -/
theorem trigger_both_patterns_counterexample :
    eventConfigFor { name := "dev", branch_pattern := some "main", tag_pattern := some "v*",
                     cloudbuild_file := "cicd/cloudbuild.yaml", require_approval := false }
      = Except.ok (PushFilter.branch "main")
    ∧ create_build_triggers "proj1" "https://github.com/o/r"
        [{ name := "dev", branch_pattern := some "main", tag_pattern := some "v*",
            cloudbuild_file := "cicd/cloudbuild.yaml", require_approval := false }]
        (fun _ => CreateOutcome.success "id1" "proj1-dev" "rn1") (Except.ok [])
      = Except.ok
          { status := "created", github_repo := "https://github.com/o/r",
            triggers := [{ environment := "dev", trigger_id := some "id1",
                           trigger_name := "proj1-dev", branch_pattern := some "main",
                           tag_pattern := some "v*",
                           cloudbuild_file := some "cicd/cloudbuild.yaml",
                           resource_name := some "rn1", status := none }] } := by
  refine ⟨rfl, rfl⟩

/-- C8 (amended): a truthy branch pattern always wins, a truthy tag pattern
is used only when the branch pattern is not truthy, and only the case where
neither is truthy is a fatal 400 configuration error — which aborts the
whole request, not just that environment. -/
theorem trigger_pattern_validation (env : EnvCfg) :
    (∀ s, env.branch_pattern = some s → s ≠ "" →
        eventConfigFor env = Except.ok (PushFilter.branch s))
    ∧ (∀ s, pyTruthy env.branch_pattern = false → env.tag_pattern = some s → s ≠ "" →
        eventConfigFor env = Except.ok (PushFilter.tag s))
    ∧ (pyTruthy env.branch_pattern = false → pyTruthy env.tag_pattern = false →
        eventConfigFor env = Except.error
          { status_code := 400,
            detail := HDetail.text ("Environment " ++ env.name
              ++ " must specify either branch_pattern or tag_pattern") })
    ∧ (∀ pid create listT rest acc,
        pyTruthy env.branch_pattern = false → pyTruthy env.tag_pattern = false →
        createTriggersGo pid create listT (env :: rest) acc
          = Except.error
            { status_code := 400,
              detail := HDetail.text ("Environment " ++ env.name
                ++ " must specify either branch_pattern or tag_pattern") }) := by
  refine ⟨?_, ?_, ?_, ?_⟩
  · intro s hb hs
    unfold eventConfigFor
    rw [hb]
    simp [pyTruthy, hs]
  · intro s hb ht hs
    unfold eventConfigFor
    rw [hb, ht]
    simp [pyTruthy, hs]
  · intro hb ht
    unfold eventConfigFor
    rw [hb, ht]
    simp
  · intro pid create listT rest acc hb ht
    simp only [createTriggersGo]
    unfold eventConfigFor
    rw [hb, ht]
    simp

/-- C8 witness: concrete environments exercising the three validation
branches through the amended theorem. -/
theorem trigger_pattern_validation_witness :
    eventConfigFor { name := "b", branch_pattern := some "main", tag_pattern := none,
                     cloudbuild_file := "f", require_approval := false }
      = Except.ok (PushFilter.branch "main")
    ∧ eventConfigFor { name := "t", branch_pattern := none, tag_pattern := some "v*",
                       cloudbuild_file := "f", require_approval := false }
      = Except.ok (PushFilter.tag "v*")
    ∧ eventConfigFor { name := "n", branch_pattern := none, tag_pattern := none,
                       cloudbuild_file := "f", require_approval := false }
      = Except.error
          { status_code := 400,
            detail :=
              HDetail.text "Environment n must specify either branch_pattern or tag_pattern" } :=
  ⟨(trigger_pattern_validation _).1 "main" rfl (by decide),
   (trigger_pattern_validation _).2.1 "v*" rfl rfl (by decide),
   (trigger_pattern_validation _).2.2.1 rfl rfl⟩

/-- Control-plane oracle for the C4 counterexample: creation is denied for
the dev trigger and would succeed for the prod trigger. -/
def c4Oracle : BuiltTrigger → CreateOutcome := fun t =>
  if t.name = "proj1-dev" then CreateOutcome.failure (PyError.permissionDenied "denied")
  else CreateOutcome.success "id2" "proj1-prod" "rn2"

/-- C4 (as stated): claimed that a control-plane exception for one
environment is caught and does not block the remaining environments, with a
created/failed partition returned.  Counterexample: with two environments
where creation for the first raises PermissionDenied and the second would
succeed, the whole request aborts with the classified 403 error and no
partial result is returned. -/
theorem create_build_triggers_abort_counterexample :
    create_build_triggers "proj1" "https://github.com/o/r"
      [{ name := "dev", branch_pattern := some "main", tag_pattern := none,
          cloudbuild_file := "f", require_approval := false },
        { name := "prod", branch_pattern := some "prod", tag_pattern := none,
          cloudbuild_file := "f", require_approval := false }]
      c4Oracle (Except.ok [])
      = Except.error
          { status_code := 403,
            detail := HDetail.gcp
              { error_type := "PermissionDenied",
                message := "Admin API service account lacks required permissions",
                gcp_error_code := some "403",
                remediation := some "Contact platform administrator to grant required IAM roles",
                resource_name := some "proj1-dev" } }
    ∧ c4Oracle { name := "proj1-prod", filter := PushFilter.branch "prod" }
        = CreateOutcome.success "id2" "proj1-prod" "rn2" := by
  refine ⟨rfl, rfl⟩

/-- C4 (amended): a non-AlreadyExists control-plane failure while creating
the trigger for an environment aborts the whole request with the classified
error: no sibling environment after it is processed, earlier successes are
discarded, and no created/failed partition exists — the response carries
only the single created-status list, and only when no environment failed. -/
theorem create_build_triggers_aborts_on_failure (pid : String)
    (create : BuiltTrigger → CreateOutcome) (listT : Except Unit (List ExistingTrigger))
    (env : EnvCfg) (rest : List EnvCfg) (acc : List TriggerRecord) (e : PyError)
    (s : String) (hb : env.branch_pattern = some s) (hs : s ≠ "")
    (hc : create { name := pid ++ "-" ++ env.name, filter := PushFilter.branch s }
            = CreateOutcome.failure e) :
    createTriggersGo pid create listT (env :: rest) acc
      = Except.error (handle_gcp_error e ("Create trigger for " ++ env.name)
          (some (pid ++ "-" ++ env.name))) := by
  simp only [createTriggersGo]
  unfold eventConfigFor
  rw [hb]
  simp [pyTruthy, hs, hc]

/-- C4 witness: a concrete failing first environment through the amended
theorem. -/
theorem create_build_triggers_aborts_on_failure_witness :
    ({ name := "dev", branch_pattern := some "main", tag_pattern := none,
        cloudbuild_file := "f", require_approval := false } : EnvCfg).branch_pattern = some "main"
    ∧ ("main" : String) ≠ ""
    ∧ createTriggersGo "p" (fun _ => CreateOutcome.failure (PyError.notFound "gone"))
        (Except.ok [])
        [{ name := "dev", branch_pattern := some "main", tag_pattern := none,
            cloudbuild_file := "f", require_approval := false }] []
      = Except.error (handle_gcp_error (PyError.notFound "gone") "Create trigger for dev"
          (some "p-dev")) :=
  ⟨rfl, by decide,
    create_build_triggers_aborts_on_failure "p" _ _ _ [] [] (PyError.notFound "gone")
      "main" rfl (by decide) rfl⟩

theorem cloudRunImportEntries_eq (pid : String) (l : List ServiceRes) :
    cloudRunImportEntries pid l = (l.filter (fun s => !s.create)).map (fun s =>
      ("module." ++ replaceChar '-' '_' s.name ++ ".google_cloud_run_service.service",
        "locations/" ++ s.region.getD "europe-north2" ++ "/namespaces/" ++ pid
          ++ "/services/" ++ s.name)) := by
  induction l with
  | nil => rfl
  | cons s rest ih =>
    by_cases h : s.create <;> simp [cloudRunImportEntries, List.filter_cons, h, ih]

theorem storageImportEntries_eq (l : List BucketRes) :
    storageImportEntries l = (l.filter (fun b => !b.create)).map (fun b =>
      ("module." ++ sanitize_terraform_name b.name "bucket" ++ ".google_storage_bucket.bucket",
        b.name)) := by
  induction l with
  | nil => rfl
  | cons b rest ih =>
    by_cases h : b.create <;> simp [storageImportEntries, List.filter_cons, h, ih]

theorem secretImportEntries_eq (pid : String) (l : List SecretRes) :
    secretImportEntries pid l = l.map (fun sec =>
      ("google_secret_manager_secret." ++ replaceChar '-' '_' sec.name,
        "projects/" ++ pid ++ "/secrets/" ++ sec.name)) := by
  induction l with
  | nil => rfl
  | cons sec rest ih => simp [secretImportEntries, ih]

theorem saImportEntries_eq (pid : String) (l : List SaRes) :
    saImportEntries pid l = l.map (fun sa =>
      ("google_service_account." ++ sanitize_terraform_name sa.email "service_account",
        "projects/" ++ pid ++ "/serviceAccounts/" ++ sa.email)) := by
  induction l with
  | nil => rfl
  | cons sa rest ih => simp [saImportEntries, ih]

theorem sqlImportEntries_eq (l : List SqlRes) :
    sqlImportEntries l = (l.filter (fun db => !db.create)).map (fun db =>
      ("module." ++ replaceChar '-' '_' db.name ++ ".google_sql_database_instance.instance",
        db.name)) := by
  induction l with
  | nil => rfl
  | cons db rest ih =>
    by_cases h : db.create <;> simp [sqlImportEntries, List.filter_cons, h, ih]

/-- C6 (amended): the import reconciler emits, in order, one unconditional
directive adopting the bootstrap-created deployer identity, then directives
for exactly the AdoptExisting compute-services (locator
locations/region/namespaces/project/services/name), exactly the
AdoptExisting object-stores (bare bucket name), every secret regardless of
mode (locator projects/project/secrets/name, not the bare name), every
identity regardless of mode (locator projects/project/serviceAccounts/email,
not the bare email), and exactly the AdoptExisting managed-datastores (bare
instance name). -/
theorem importEntries_characterization (sel : Selection) (pid : String) :
    importEntries sel pid
      = ("google_service_account.deployer",
          "projects/" ++ pid ++ "/serviceAccounts/deployer@" ++ pid
            ++ ".iam.gserviceaccount.com")
        :: ((sel.cloud_run.filter (fun s => !s.create)).map (fun s =>
              ("module." ++ replaceChar '-' '_' s.name ++ ".google_cloud_run_service.service",
                "locations/" ++ s.region.getD "europe-north2" ++ "/namespaces/" ++ pid
                  ++ "/services/" ++ s.name))
            ++ (sel.storage.filter (fun b => !b.create)).map (fun b =>
                ("module." ++ sanitize_terraform_name b.name "bucket"
                    ++ ".google_storage_bucket.bucket", b.name))
            ++ sel.secrets.map (fun sec =>
                ("google_secret_manager_secret." ++ replaceChar '-' '_' sec.name,
                  "projects/" ++ pid ++ "/secrets/" ++ sec.name))
            ++ sel.service_accounts.map (fun sa =>
                ("google_service_account." ++ sanitize_terraform_name sa.email "service_account",
                  "projects/" ++ pid ++ "/serviceAccounts/" ++ sa.email))
            ++ (sel.cloud_sql.filter (fun db => !db.create)).map (fun db =>
                ("module." ++ replaceChar '-' '_' db.name
                    ++ ".google_sql_database_instance.instance", db.name))) := by
  simp [importEntries, nonDeployerImportEntries, deployerImportEntry,
    cloudRunImportEntries_eq, storageImportEntries_eq, secretImportEntries_eq,
    saImportEntries_eq, sqlImportEntries_eq]

/-- Selection for the C6 counterexample: one secret explicitly marked for
creation and one identity. -/
def selC6 : Selection :=
  { cloud_run := [], cloud_sql := [], firestore := [], storage := [],
    secrets := [{ name := "api-key", create := true }],
    service_accounts := [{ email := "app@myproj.iam.gserviceaccount.com",
                           display_name := none }],
    apis := [] }

/-- C6 (as stated): claimed that a directive is emitted only for
AdoptExisting resources, with identity locator the bare email and secret
locator the bare name.  Counterexample: a secret marked Create still gets a
directive, its locator is a projects/... path rather than the bare name, the
identity locator is a projects/... path rather than the bare email, and an
unconditional deployer directive is emitted for a resource that is not in
the selection at all. -/
theorem importEntries_counterexample :
    selC6.secrets = [{ name := "api-key", create := true }]
    ∧ ("google_secret_manager_secret.api_key", "projects/myproj/secrets/api-key")
        ∈ importEntries selC6 "myproj"
    ∧ ("google_service_account.app",
        "projects/myproj/serviceAccounts/app@myproj.iam.gserviceaccount.com")
        ∈ importEntries selC6 "myproj"
    ∧ ("projects/myproj/serviceAccounts/app@myproj.iam.gserviceaccount.com" : String)
        ≠ "app@myproj.iam.gserviceaccount.com"
    ∧ ("google_service_account.deployer",
        "projects/myproj/serviceAccounts/deployer@myproj.iam.gserviceaccount.com")
        ∈ importEntries selC6 "myproj" := by
  refine ⟨rfl, by decide, by decide, by decide, by decide⟩

/-- Selection for the C3 counterexample: one managed datastore and no
compute-service at all. -/
def selC3 : Selection :=
  { cloud_run := [],
    cloud_sql := [{ name := "prod-db", database_version := none, tier := none,
                    backups := none, create := true }],
    firestore := [], storage := [], secrets := [], service_accounts := [], apis := [] }

/-- C3 (as stated): claimed that the migration-job artifact is emitted only
when the selection contains both a managed-datastore and at least one
compute-service.  Counterexample: a selection with one Cloud SQL datastore
and no compute-service still gets migration-job.tf. -/
theorem migration_job_without_compute_service :
    "migration-job.tf" ∈ (terraformWrites "Acme" "Shop" selC3 "proj" none none).map Prod.fst
    ∧ selC3.cloud_run = [] := by
  refine ⟨by decide, rfl⟩

/-- C3 (amended): the migration-job artifact is emitted exactly when the
selection contains a Cloud SQL managed-datastore (no compute-service is
required, and a Firestore datastore does not trigger it); when emitted, it
is written after both the identity artifact (service-accounts.tf) and the
datastore artifact (database-sql.tf); and a selection without Cloud SQL — in
particular one AdoptExisting compute-service alone — gets no migration-job
artifact. -/
theorem migration_job_emitted_iff_cloud_sql (client project : String) (sel : Selection)
    (gcp : String) (cs ps : Option String) :
    ("migration-job.tf" ∈ (terraformWrites client project sel gcp cs ps).map Prod.fst
        ↔ sel.cloud_sql.isEmpty = false)
    ∧ (sel.cloud_sql.isEmpty = false →
        ((terraformWrites client project sel gcp cs ps).map Prod.fst).indexOf "service-accounts.tf"
            < ((terraformWrites client project sel gcp cs ps).map Prod.fst).indexOf "migration-job.tf"
        ∧ ((terraformWrites client project sel gcp cs ps).map Prod.fst).indexOf "database-sql.tf"
            < ((terraformWrites client project sel gcp cs ps).map Prod.fst).indexOf "migration-job.tf")
    ∧ (sel.cloud_sql.isEmpty = true →
        "migration-job.tf" ∉ (terraformWrites client project sel gcp cs ps).map Prod.fst) := by
  rcases sel with ⟨cr, csql, fs, st, se, sa, ap⟩
  cases cr <;> cases csql <;> cases fs <;> cases st <;> cases se <;>
    simp [terraformWrites]

/-- C3 witness: the ordering conjunct applied to a selection with a Cloud
SQL datastore and a compute-service. -/
theorem migration_job_emitted_iff_cloud_sql_witness :
    (selC3.cloud_sql.isEmpty = false)
    ∧ ((terraformWrites "Acme" "Shop" selC3 "proj" none none).map Prod.fst).indexOf "service-accounts.tf"
        < ((terraformWrites "Acme" "Shop" selC3 "proj" none none).map Prod.fst).indexOf "migration-job.tf"
    ∧ ((terraformWrites "Acme" "Shop" selC3 "proj" none none).map Prod.fst).indexOf "database-sql.tf"
        < ((terraformWrites "Acme" "Shop" selC3 "proj" none none).map Prod.fst).indexOf "migration-job.tf" :=
  ⟨by decide,
   ((migration_job_emitted_iff_cloud_sql "Acme" "Shop" selC3 "proj" none none).2.1 (by decide)).1,
   ((migration_job_emitted_iff_cloud_sql "Acme" "Shop" selC3 "proj" none none).2.1 (by decide)).2⟩

/-- Content of the last write to a given file in a write sequence, if any. -/
def lastVal (ws : List (String × String)) (n : String) : Option String :=
  match ws with
  | [] => none
  | w :: rest =>
    match lastVal rest n with
    | some v => some v
    | none => if n = w.1 then some w.2 else none

theorem applyWrites_apply (ws : List (String × String)) (st : String → Option String)
    (n : String) :
    applyWrites ws st n = match lastVal ws n with
      | some v => some v
      | none => st n := by
  induction ws generalizing st with
  | nil => rfl
  | cons w rest ih =>
    show applyWrites rest (fsWrite st w.1 w.2) n = _
    rw [ih]
    simp only [lastVal]
    cases lastVal rest n with
    | some v => rfl
    | none =>
      simp only [fsWrite]
      by_cases h : n = w.1 <;> simp [h]

/-- C1 (amended): composition is deterministic and overwrite-idempotent at
the byte level — every artifact file is rewritten wholesale with content
that is a pure function of the arguments, so running the composer twice
with identical arguments leaves every file byte-identical to a single run —
but it is not append-only (see the superset counterexample). -/
theorem generate_terraform_config_idempotent (client project : String) (sel : Selection)
    (gcp : String) (cs ps : Option String) (st : String → Option String) :
    generate_terraform_config client project sel gcp cs ps
        (generate_terraform_config client project sel gcp cs ps st)
      = generate_terraform_config client project sel gcp cs ps st := by
  funext n
  unfold generate_terraform_config
  rw [applyWrites_apply, applyWrites_apply]
  cases lastVal (terraformWrites client project sel gcp cs ps) n <;> rfl

/-- Selection for the C1 counterexample: one compute-service. -/
def selC1a : Selection :=
  { cloud_run := [{ name := "api", type_ := some "backend", region := none, create := true }],
    cloud_sql := [], firestore := [], storage := [], secrets := [],
    service_accounts := [], apis := [] }

/-- Additive superset of selC1a: the same selection plus a second
compute-service. -/
def selC1b : Selection :=
  { cloud_run := [{ name := "api", type_ := some "backend", region := none, create := true },
                  { name := "web", type_ := some "frontend", region := none, create := true }],
    cloud_sql := [], firestore := [], storage := [], secrets := [],
    service_accounts := [], apis := [] }

set_option maxRecDepth 400000 in
/-- C1 (as stated): claimed that composing an additive superset produces the
original bytes plus exactly the new blocks.  Counterexample: adding a second
compute-service regenerates service-accounts.tf with a new line inside the
leading locals block, so the original file content is not even a prefix of
the new content. -/
theorem generate_terraform_config_superset_not_append_only :
    selC1b.cloud_run = selC1a.cloud_run
        ++ [{ name := "web", type_ := some "frontend", region := none, create := true }]
    ∧ selC1b.cloud_sql = selC1a.cloud_sql ∧ selC1b.firestore = selC1a.firestore
    ∧ selC1b.storage = selC1a.storage ∧ selC1b.secrets = selC1a.secrets
    ∧ selC1b.service_accounts = selC1a.service_accounts ∧ selC1b.apis = selC1a.apis
    ∧ (findContent (terraformWrites "Acme" "Shop" selC1a "acme-shop" none none)
        "service-accounts.tf").isSome = true
    ∧ (findContent (terraformWrites "Acme" "Shop" selC1b "acme-shop" none none)
        "service-accounts.tf").isSome = true
    ∧ List.isPrefixOf
        ((findContent (terraformWrites "Acme" "Shop" selC1a "acme-shop" none none)
          "service-accounts.tf").getD "").toList
        ((findContent (terraformWrites "Acme" "Shop" selC1b "acme-shop" none none)
          "service-accounts.tf").getD "").toList
      = false := by
  refine ⟨rfl, rfl, rfl, rfl, rfl, rfl, rfl, by decide, by decide, by decide⟩

/-- C7: the bootstrap orchestrator is partial-failure tolerant.  For any
control plane where the state-store probe succeeds, the deploy-identity
probe and creation both fail, and the network-bridge resolution and grant
succeed, the run still executes all three steps in the fixed order
store → identity → bridge (the exact trace of issued commands), the
identity failure does not abort the later bridge step, and the returned
aggregate reports the store and bridge Ready and the identity Failed. -/
theorem bootstrap_partial_failure_tolerant (env : GcloudEnv)
    (pid region bucket : String) (o1 o2 o3 o4 o5 : String)
    (h1 : env ["storage", "buckets", "describe", "gs://" ++ bucket, "--project", pid]
            = (true, o1))
    (h2 : env ["iam", "service-accounts", "describe",
               "deployer@" ++ pid ++ ".iam.gserviceaccount.com", "--project", pid]
            = (false, o2))
    (h3 : env ["iam", "service-accounts", "create", "deployer", "--project", pid,
               "--display-name", "Cloud Build Deployer",
               "--description", "Service account for deploying services via Cloud Build"]
            = (false, o3))
    (h4 : env ["projects", "describe", pid, "--format", "value(projectNumber)"]
            = (true, o4))
    (h5 : env ["projects", "add-iam-policy-binding", "solvigo-platform-prod",
               "--member", "serviceAccount:"
                 ++ ("service-" ++ pyStripWS o4
                      ++ "@serverless-robot-prod.iam.gserviceaccount.com"),
               "--role", "roles/vpcaccess.user", "--condition=None"]
            = (true, o5)) :
    bootstrap_infrastructure env pid region bucket true
      = ({ state_bucket := true, deployer_sa := false,
           deployer_sa_email := "deployer@" ++ pid ++ ".iam.gserviceaccount.com",
           vpc_access := true },
         [["storage", "buckets", "describe", "gs://" ++ bucket, "--project", pid],
          ["iam", "service-accounts", "describe",
           "deployer@" ++ pid ++ ".iam.gserviceaccount.com", "--project", pid],
          ["iam", "service-accounts", "create", "deployer", "--project", pid,
           "--display-name", "Cloud Build Deployer",
           "--description", "Service account for deploying services via Cloud Build"],
          ["projects", "describe", pid, "--format", "value(projectNumber)"],
          ["projects", "add-iam-policy-binding", "solvigo-platform-prod",
           "--member", "serviceAccount:"
             ++ ("service-" ++ pyStripWS o4
                  ++ "@serverless-robot-prod.iam.gserviceaccount.com"),
           "--role", "roles/vpcaccess.user", "--condition=None"]]) := by
  unfold bootstrap_infrastructure create_state_bucket create_deployer_sa
    grant_vpc_connector_permission run_gcloud
  simp [h1, h2, h3, h4, h5]

/-- Control plane for the C7 witness: the bucket probe, the project-number
lookup and the host-project binding succeed; everything else fails. -/
def envC7 : GcloudEnv := fun cmd =>
  if cmd = ["storage", "buckets", "describe", "gs://bkt", "--project", "cli-proj"] then
    (true, "")
  else if cmd = ["projects", "describe", "cli-proj", "--format", "value(projectNumber)"] then
    (true, "123456\n")
  else if cmd = ["projects", "add-iam-policy-binding", "solvigo-platform-prod",
                 "--member",
                 "serviceAccount:service-123456@serverless-robot-prod.iam.gserviceaccount.com",
                 "--role", "roles/vpcaccess.user", "--condition=None"] then
    (true, "")
  else (false, "")

/-- C7 witness: a concrete control plane where the deploy-identity step
fails while the other two steps succeed. -/
theorem bootstrap_partial_failure_tolerant_witness :
    (bootstrap_infrastructure envC7 "cli-proj" "eu" "bkt" true).1
      = { state_bucket := true, deployer_sa := false,
          deployer_sa_email := "deployer@cli-proj.iam.gserviceaccount.com",
          vpc_access := true } := by
  have h := bootstrap_partial_failure_tolerant envC7 "cli-proj" "eu" "bkt"
    "" "" "" "123456\n" "" (by decide) (by decide) (by decide) (by decide) (by decide)
  rw [h]
  decide

/-- Control plane for the C10 indistinguishability instance: every gcloud
command succeeds; the project-number lookup returns 123456. -/
def envC10 : GcloudEnv := fun cmd =>
  if cmd = ["projects", "describe", "cli-proj", "--format", "value(projectNumber)"] then
    (true, "123456\n")
  else (true, "")

/-- C10: with grant_vpc_access set to False no network-bridge operation is
attempted — the trace is exactly the trace of the first two steps — yet the
returned result reports vpc_access as True, and on a control plane where the
grant would succeed the returned results with and without the flag are
identical, so a skipped bridge step is indistinguishable from a verified
successful one. -/
theorem bootstrap_vpc_skip_reported_success :
    (∀ (env : GcloudEnv) (pid region bucket : String),
        (bootstrap_infrastructure env pid region bucket false).1.vpc_access = true
        ∧ (bootstrap_infrastructure env pid region bucket false).2
            = (create_deployer_sa env pid "deployer"
                (create_state_bucket env pid region bucket []).2).2)
    ∧ (bootstrap_infrastructure envC10 "cli-proj" "eu" "bkt" false).1
        = (bootstrap_infrastructure envC10 "cli-proj" "eu" "bkt" true).1
    ∧ ["projects", "describe", "cli-proj", "--format", "value(projectNumber)"]
        ∉ (bootstrap_infrastructure envC10 "cli-proj" "eu" "bkt" false).2
    ∧ ["projects", "describe", "cli-proj", "--format", "value(projectNumber)"]
        ∈ (bootstrap_infrastructure envC10 "cli-proj" "eu" "bkt" true).2 := by
  refine ⟨?_, by decide, by decide, by decide⟩
  intro env pid region bucket
  constructor
  · rfl
  · rfl

end Solvigo
